import Mathlib

/-!
Shallow embedding of `src/admin.py` (forte-admin): a Streamlit admin tool that
lists PDFs under a style prefix in S3, downloads and extracts them, chunks the
text, embeds the chunks, builds a FAISS index and uploads the two artifact
files (`my_faiss_<style>.faiss`, `my_faiss_<style>.pkl`) to the bucket.

External services (S3, Bedrock, PyPDF, FAISS) are modelled as oracles: each
remote call's outcome is an input of the embedded function.  The bucket is an
association list from keys to blob identifiers; an upload that succeeds
replaces the blob stored at its key, an upload that raises leaves the bucket
unchanged (S3 object puts are atomic per object).
-/

/-- A page of extracted text, as a list of characters. -/
abbrev Page := List Char

/-- The S3 bucket: an association list from object keys to blob identifiers. -/
abbrev Bucket := List (String × Nat)

/-- Store a blob at a key, replacing any previous blob at that key
(the semantics of a successful `s3_client.upload_file`). -/
def putObject (b : Bucket) (k : String) (v : Nat) : Bucket :=
  match b with
  | [] => [(k, v)]
  | (k0, v0) :: rest => if k0 = k then (k, v) :: rest else (k0, v0) :: putObject rest k v

/-- Read the blob stored at a key, if any. -/
def getObject (b : Bucket) (k : String) : Option Nat :=
  match b with
  | [] => none
  | (k0, v0) :: rest => if k0 = k then some v0 else getObject rest k

/-- Module initialization, src/admin.py lines 12-14: `BUCKET_NAME = os.getenv("BUCKET_NAME")`
followed by `if not BUCKET_NAME: raise ValueError(...)`.  `os.getenv` returns `None`
when the variable is absent; Python truthiness makes both `None` and the empty
string trigger the raise. -/
def moduleInit (bucketEnv : Option String) : Except String String :=
  match bucketEnv with
  | none => Except.error "BUCKET_NAME environment variable is not set"
  | some s =>
      if s = "" then Except.error "BUCKET_NAME environment variable is not set"
      else Except.ok s

/-- The function `ensure_bucket_exists`, src/admin.py lines 17-34.  `headErr` is the
outcome of `s3_client.head_bucket`: `none` when the bucket exists, `some code`
when the call raises a `ClientError` carrying that error code.  `createOk` is
whether `s3_client.create_bucket` succeeds when attempted.  Returns `true` when
the bucket exists, `true` after creating it on a `'404'` code, and `false` on a
non-`'404'` `ClientError` or on a creation failure. -/
def ensure_bucket_exists (headErr : Option String) (createOk : Bool) : Bool :=
  match headErr with
  | none => true
  | some code => if code = "404" then createOk else false

/-- The filter of src/admin.py line 107: `obj['Key'].lower().endswith('.pdf')`. -/
def lowerEndsWithPdf (k : String) : Bool :=
  List.isSuffixOf (String.data ".pdf") (k.data.map Char.toLower)

/-- Keys returned by `s3_client.list_objects_v2(Bucket=..., Prefix=pfx)`: the
external S3 interface lists exactly the objects whose key starts with the
prefix (spec section 6, "list objects by prefix"). -/
def s3Contents (allKeys : List String) (pfx : String) : List String :=
  allKeys.filter (fun k => List.isPrefixOf pfx.data k.data)

/-- The function `list_pdfs_in_s3`, src/admin.py lines 97-111.  `res` is the outcome
of the `list_objects_v2` call: `some contents` is the list of keys in the
response (an absent `Contents` field is `some []`), `none` means the call
raised; the `except` branch reports the error and returns the empty list. -/
def list_pdfs_in_s3 (res : Option (List String)) : List String :=
  match res with
  | some contents => contents.filter lowerEndsWithPdf
  | none => []

/-- The function `download_and_process_pdf`, src/admin.py lines 113-126.  `download`
is the outcome of `s3_client.download_file` (the downloaded file on success),
`extract` the outcome of `PyPDFLoader(...).load_and_split()` on that file.  Any
exception in either step is caught, reported with `st.error`, and turned into
`None`. -/
def download_and_process_pdf (download : String → Option Nat)
    (extract : Nat → Option (List Page)) (k : String) : Option (List Page) :=
  match download k with
  | none => none
  | some file =>
      match extract file with
      | none => none
      | some pages => some pages

/-- The per-document loop of `main`, src/admin.py lines 175-180: for each key, call
the loader; `if pages:` appends only a non-`None`, non-empty page list to
`all_pages`, and the loop continues regardless. -/
def processAll (keys : List String) (load : String → Option (List Page)) : List Page :=
  match keys with
  | [] => []
  | k :: rest =>
      match load k with
      | none => processAll rest load
      | some pages => if pages.isEmpty then processAll rest load
                      else pages ++ processAll rest load

/-- Modelled from the spec: the chunking algorithm of
`RecursiveCharacterTextSplitter` invoked by `split_text` (src/admin.py lines
58-61) is in the external langchain library, not in this repository.  Spec
section 4.3: each chunk after the first repeats the trailing `chunk_overlap`
characters of the previous chunk, no chunk exceeds `chunk_size`, an empty page
yields zero chunks, a short page yields exactly one chunk, and no trailing
content is dropped.  The guard `size ≤ overlap` keeps the definition total;
the spec's invariant `chunk_overlap < chunk_size` never reaches it. -/
def splitOnePage (size overlap : Nat) (s : List Char) : List (List Char) :=
  if s.isEmpty then []
  else if s.length ≤ size ∨ size ≤ overlap then [s]
  else s.take size :: splitOnePage size overlap (s.drop (size - overlap))
termination_by s.length
decreasing_by
  simp only [not_or, not_le] at *
  have hne : s ≠ [] := by
    intro hnil
    simp [hnil] at *
  have hpos : 0 < s.length := List.length_pos.mpr hne
  simp only [List.length_drop]
  omega

/-- Modelled from the spec: the function `split_text` (src/admin.py lines 58-61)
delegates to langchain's splitter over the accumulated pages; each page's text
is split independently and the chunks are concatenated in page order. -/
def split_text (pages : List Page) (size overlap : Nat) : List (List Char) :=
  (pages.map (splitOnePage size overlap)).flatten

/-- The function `create_vector_store`, src/admin.py lines 64-95, restricted to its
persistence phase (the FAISS build and `save_local` produce the two local
artifact files, whose serialized contents are the blobs `idxBlob` and
`pklBlob`).  The `try` block uploads the `.faiss` file and then the `.pkl`
file to the bucket, each to its published key; `idxOk` and `pklOk` say whether
each `upload_file` call succeeds.  A raise is caught, reported, and answered
with `False`; a raise on the second upload does not undo the first. -/
def create_vector_store (style_key : String) (documents : List (List Char))
    (idxBlob pklBlob : Nat) (idxOk pklOk : Bool) (bucket : Bucket) : Bool × Bucket :=
  let faiss_index_file := "my_faiss_" ++ style_key ++ ".faiss"
  let faiss_pkl_file := "my_faiss_" ++ style_key ++ ".pkl"
  if idxOk then
    let b1 := putObject bucket faiss_index_file idxBlob
    if pklOk then (true, putObject b1 faiss_pkl_file pklBlob)
    else (false, b1)
  else (false, bucket)

/-- Phases of a run, in the order `main` executes them. -/
inductive Phase where
  | ENSURE_BUCKET
  | LIST_DOCS
  | PER_DOC
  | CHUNK
  | EMBED_BUILD
  | PERSIST
deriving DecidableEq, Repr

/-- Outcome of a run of `main`. -/
inductive Outcome where
  | configError
  | bucketError
  | noDocsWarning
  | noPages
  | success
  | vectorStoreError
deriving DecidableEq, Repr

/-- Outcomes of every external call a run of `main` can make. -/
structure World where
  headErr : Option String
  createOk : Bool
  listResult : Option (List String)
  download : String → Option Nat
  extract : Nat → Option (List Page)
  styleKey : String
  idxBlob : Nat
  pklBlob : Nat
  idxOk : Bool
  pklOk : Bool

/-- The function `main`, src/admin.py lines 128-201: ensure the bucket exists
(abort on failure, line 133-135), list the PDFs for the selected prefix, warn
and stop when none are found (lines 165-167), accumulate pages per document
(lines 175-180), and when pages exist, chunk them (line 184) and build and
upload the vector store (line 196).  The result records the outcome, the final
bucket, and the phases the run reached. -/
def admin_main (w : World) (bucket : Bucket) : Outcome × Bucket × List Phase :=
  if ensure_bucket_exists w.headErr w.createOk then
    let pdf_files := list_pdfs_in_s3 w.listResult
    if pdf_files.isEmpty then
      (Outcome.noDocsWarning, bucket, [Phase.ENSURE_BUCKET, Phase.LIST_DOCS])
    else
      let all_pages := processAll pdf_files (download_and_process_pdf w.download w.extract)
      if all_pages.isEmpty then
        (Outcome.noPages, bucket, [Phase.ENSURE_BUCKET, Phase.LIST_DOCS, Phase.PER_DOC])
      else
        let splitted_docs := split_text all_pages 1000 200
        let r := create_vector_store w.styleKey splitted_docs w.idxBlob w.pklBlob
                   w.idxOk w.pklOk bucket
        ((if r.1 then Outcome.success else Outcome.vectorStoreError), r.2,
          [Phase.ENSURE_BUCKET, Phase.LIST_DOCS, Phase.PER_DOC, Phase.CHUNK,
           Phase.EMBED_BUILD, Phase.PERSIST])
  else (Outcome.bucketError, bucket, [Phase.ENSURE_BUCKET])

/-- The whole program: module initialization (src/admin.py lines 12-14) runs before
`main`; a missing `BUCKET_NAME` raises before any storage or pipeline call, so
the run ends with an empty phase trace and an untouched bucket. -/
def runProgram (bucketEnv : Option String) (w : World) (bucket : Bucket) :
    Outcome × Bucket × List Phase :=
  match moduleInit bucketEnv with
  | Except.error _ => (Outcome.configError, bucket, [])
  | Except.ok _ => admin_main w bucket

/-- A sample extracted page used in concrete witnesses. -/
def samplePage : Page := String.data "abcdefghijkl"

/-- A download oracle for a two-document scenario: the first document's download
raises (corrupt or vanished object), the second succeeds. -/
def dOne : String → Option Nat := fun k => if k = "mail/b.pdf" then some 7 else none

/-- An extraction oracle that succeeds on every downloaded file with one page. -/
def eOne : Nat → Option (List Page) := fun _ => some [['x']]

/-- A world whose listing succeeds but holds no PDF key. -/
def w0 : World :=
  { headErr := none, createOk := true, listResult := some ["report/readme.txt"],
    download := fun _ => none, extract := fun _ => none, styleKey := "report",
    idxBlob := 1, pklBlob := 2, idxOk := true, pklOk := true }

/-- A world whose bucket existence check fails with a non-404 client error. -/
def wBad : World := { w0 with headErr := some "500" }

/-- A world whose listing call raises. -/
def wNone : World := { w0 with listResult := none }

/-- Every chunk produced from one page is at most `size` characters long, when
`overlap < size`.  Induction on an upper bound of the page length. -/
theorem splitOnePage_length_le (size overlap : Nat) (h : overlap < size) :
    ∀ n s, List.length s ≤ n → ∀ c ∈ splitOnePage size overlap s, c.length ≤ size := by
  intro n
  induction n with
  | zero =>
      intro s hs c hc
      have hnil : s = [] := List.eq_nil_of_length_eq_zero (Nat.le_zero.mp hs)
      subst hnil
      simp [splitOnePage] at hc
  | succ n ih =>
      intro s hs c hc
      rw [splitOnePage] at hc
      by_cases he : s.isEmpty
      · simp [he] at hc
      · by_cases hle : s.length ≤ size ∨ size ≤ overlap
        · simp [he, hle] at hc
          subst hc
          rcases hle with h1 | h2
          · exact h1
          · omega
        · simp [he, hle] at hc
          push_neg at hle
          rcases hc with hc | hc
          · subst hc
            simp [List.length_take]
          · have hpos : s ≠ [] := by
              intro hnil
              simp [hnil] at he
            have hlen : 0 < s.length := List.length_pos.mpr hpos
            refine ih (s.drop (size - overlap)) ?_ c hc
            simp only [List.length_drop]
            omega

/-- C3: with `chunk_overlap < chunk_size`, every chunk returned by `split_text`
has length at most `chunk_size` characters (so in particular no chunk of the
pipeline's call with chunk_size 1000 and chunk_overlap 200 exceeds 1000). -/
theorem split_text_chunk_length_le (pages : List Page) (size overlap : Nat)
    (h : overlap < size) :
    (split_text pages size overlap).all (fun c => decide (c.length ≤ size)) = true := by
  rw [List.all_eq_true]
  intro c hc
  simp only [split_text, List.mem_flatten, List.mem_map] at hc
  obtain ⟨l, ⟨p, hp, hl⟩, hcl⟩ := hc
  subst hl
  simpa using splitOnePage_length_le size overlap h p.length p le_rfl c hcl

/-- Witness for C3 at the pipeline's parameters chunk_size 1000, chunk_overlap 200. -/
theorem split_text_chunk_length_le_witness :
    200 < 1000 ∧
    (split_text [samplePage] 1000 200).all (fun c => decide (c.length ≤ 1000)) = true :=
  ⟨by decide, split_text_chunk_length_le [samplePage] 1000 200 (by decide)⟩

/-- C4: chunking is deterministic and idempotent: two runs of `split_text` on
identical pages and identical valid parameters yield identical chunk sequences. -/
theorem split_text_deterministic (p1 p2 : List Page) (s1 s2 o1 o2 : Nat)
    (h : o1 < s1) (hp : p1 = p2) (hs : s1 = s2) (ho : o1 = o2) :
    split_text p1 s1 o1 = split_text p2 s2 o2 := by
  subst hp
  subst hs
  subst ho
  rfl

/-- Witness for C4: two runs on the sample page with chunk_size 5, chunk_overlap 2. -/
theorem split_text_deterministic_witness :
    2 < 5 ∧ split_text [samplePage] 5 2 = split_text [samplePage] 5 2 :=
  ⟨by decide, split_text_deterministic [samplePage] [samplePage] 5 5 2 2 (by decide) rfl rfl rfl⟩

/-- C5: a download or extraction failure is confined to its document:
`download_and_process_pdf` answers `None` for it, the loop continues, and the
accumulated pages are exactly the concatenation, in listing order, of the page
lists of the documents that loaded successfully. -/
theorem processAll_isolates_failures (keys : List String) (download : String → Option Nat)
    (extract : Nat → Option (List Page)) :
    processAll keys (download_and_process_pdf download extract)
      = (keys.filterMap (download_and_process_pdf download extract)).flatten ∧
    (∀ k, download k = none → download_and_process_pdf download extract k = none) := by
  constructor
  · induction keys with
    | nil => rfl
    | cons k rest ih =>
        simp only [processAll, List.filterMap_cons]
        cases hl : download_and_process_pdf download extract k with
        | none => simpa using ih
        | some pages =>
            cases pages with
            | nil => simpa using ih
            | cons a l => simp [ih]
  · intro k hk
    simp [download_and_process_pdf, hk]

/-- Witness for C5: two listed PDFs of which the first fails to download; the run
skips it and still accumulates the other document's page. -/
theorem processAll_isolates_failures_witness :
    dOne "mail/a.pdf" = none ∧
    download_and_process_pdf dOne eOne "mail/a.pdf" = none ∧
    processAll ["mail/a.pdf", "mail/b.pdf"] (download_and_process_pdf dOne eOne)
      = [['x']] :=
  ⟨by decide,
   (processAll_isolates_failures ["mail/a.pdf", "mail/b.pdf"] dOne eOne).2
     "mail/a.pdf" (by decide),
   by decide⟩

/-- C6: on a successful listing, `list_pdfs_in_s3` returns exactly the keys under
the prefix whose key ends with ".pdf" compared case-insensitively: ".PDF" and
".Pdf" keys are included, other suffixes excluded, and an empty response gives
the empty list as a valid (non-error) result. -/
theorem list_pdfs_in_s3_exact (allKeys : List String) (pfx : String) :
    list_pdfs_in_s3 (some (s3Contents allKeys pfx))
      = allKeys.filter (fun k => List.isPrefixOf pfx.data k.data && lowerEndsWithPdf k) ∧
    lowerEndsWithPdf "mail/a.PDF" = true ∧
    lowerEndsWithPdf "mail/b.Pdf" = true ∧
    lowerEndsWithPdf "mail/c.pdf" = true ∧
    lowerEndsWithPdf "mail/d.txt" = false ∧
    lowerEndsWithPdf "mail/e.pdf.bak" = false ∧
    list_pdfs_in_s3 (some []) = [] := by
  refine ⟨?_, by decide, by decide, by decide, by decide, by decide, rfl⟩
  simp only [list_pdfs_in_s3, s3Contents, List.filter_filter]
  exact List.filter_congr (fun k _ => Bool.and_comm _ _)

/-- C7: whenever the bucket check passed and the listing yields zero PDF keys,
the run stops right after LIST_DOCS with the warning outcome: the bucket is
untouched and no later phase is reached. -/
theorem admin_main_stops_on_no_docs (w : World) (bucket : Bucket)
    (hB : ensure_bucket_exists w.headErr w.createOk = true)
    (hL : list_pdfs_in_s3 w.listResult = []) :
    admin_main w bucket
      = (Outcome.noDocsWarning, bucket, [Phase.ENSURE_BUCKET, Phase.LIST_DOCS]) := by
  simp [admin_main, hB, hL]

/-- Witness for C7: a world whose listing holds only a non-PDF key. -/
theorem admin_main_stops_on_no_docs_witness :
    ensure_bucket_exists w0.headErr w0.createOk = true ∧
    list_pdfs_in_s3 w0.listResult = [] ∧
    admin_main w0 []
      = (Outcome.noDocsWarning, [], [Phase.ENSURE_BUCKET, Phase.LIST_DOCS]) :=
  ⟨by decide, by decide, admin_main_stops_on_no_docs w0 [] (by decide) (by decide)⟩

/-- C8: a missing BUCKET_NAME is fatal at module initialization: the
configuration error is raised and the program performs no storage or pipeline
operation (empty phase trace, bucket untouched). -/
theorem moduleInit_missing_bucket_name :
    moduleInit none = Except.error "BUCKET_NAME environment variable is not set" ∧
    ∀ w bucket, runProgram none w bucket = (Outcome.configError, bucket, []) :=
  ⟨rfl, fun _ _ => rfl⟩

/-- C9: `ensure_bucket_exists` returns true when the bucket already exists,
returns the creation outcome on a "404" code, returns false on any other
client-error code and on creation failure, and a false answer makes `main`
abort before the listing phase. -/
theorem ensure_bucket_exists_spec :
    (∀ c, ensure_bucket_exists none c = true) ∧
    ensure_bucket_exists (some "404") true = true ∧
    ensure_bucket_exists (some "404") false = false ∧
    (∀ code c, code ≠ "404" → ensure_bucket_exists (some code) c = false) ∧
    (∀ w bucket, ensure_bucket_exists w.headErr w.createOk = false →
      admin_main w bucket = (Outcome.bucketError, bucket, [Phase.ENSURE_BUCKET])) := by
  refine ⟨fun c => rfl, by decide, by decide, ?_, ?_⟩
  · intro code c hne
    simp [ensure_bucket_exists, hne]
  · intro w bucket hfail
    simp [admin_main, hfail]

/-- Witness for C9: a "500" existence-check failure returns false and aborts the
run at ENSURE_BUCKET. -/
theorem ensure_bucket_exists_spec_witness :
    ("500" ≠ "404" ∧ ensure_bucket_exists (some "500") true = false) ∧
    (ensure_bucket_exists wBad.headErr wBad.createOk = false ∧
      admin_main wBad [] = (Outcome.bucketError, [], [Phase.ENSURE_BUCKET])) :=
  ⟨⟨by decide, ensure_bucket_exists_spec.2.2.2.1 "500" true (by decide)⟩,
   ⟨by decide, ensure_bucket_exists_spec.2.2.2.2 wBad [] (by decide)⟩⟩

/-- C10: a raised listing call makes `list_pdfs_in_s3` return the empty list,
indistinguishable at its interface from a successful listing of zero objects,
and the run then ends on the zero-documents warning path. -/
theorem list_pdfs_failure_indistinguishable :
    list_pdfs_in_s3 none = [] ∧
    list_pdfs_in_s3 none = list_pdfs_in_s3 (some []) ∧
    (∀ w bucket, w.listResult = none →
      ensure_bucket_exists w.headErr w.createOk = true →
      admin_main w bucket
        = (Outcome.noDocsWarning, bucket, [Phase.ENSURE_BUCKET, Phase.LIST_DOCS])) := by
  refine ⟨rfl, rfl, ?_⟩
  intro w bucket hres hB
  simp [admin_main, hB, list_pdfs_in_s3, hres]

/-- Witness for C10: a world whose listing call raises ends with the same
outcome and trace as the zero-documents run. -/
theorem list_pdfs_failure_indistinguishable_witness :
    wNone.listResult = none ∧
    ensure_bucket_exists wNone.headErr wNone.createOk = true ∧
    admin_main wNone []
      = (Outcome.noDocsWarning, [], [Phase.ENSURE_BUCKET, Phase.LIST_DOCS]) :=
  ⟨rfl, by decide, list_pdfs_failure_indistinguishable.2.2 wNone [] rfl (by decide)⟩

/-- C1: evaluation at the failing input.  The bucket holds a previously published
pair (blobs 10 and 11); the new artifact pair is (20, 21); the index upload
succeeds and the metadata upload fails.  `create_vector_store` returns false,
yet the published index file now holds the new blob 20 while the metadata file
still holds the old blob 11: the previously published pair is not left intact,
so a reader can observe new index + old metadata. -/
theorem create_vector_store_partial_exposure :
    (create_vector_store "mail" [] 20 21 true false
        [("my_faiss_mail.faiss", 10), ("my_faiss_mail.pkl", 11)]).1 = false ∧
    (create_vector_store "mail" [] 20 21 true false
        [("my_faiss_mail.faiss", 10), ("my_faiss_mail.pkl", 11)]).2
      = [("my_faiss_mail.faiss", 20), ("my_faiss_mail.pkl", 11)] ∧
    getObject (create_vector_store "mail" [] 20 21 true false
        [("my_faiss_mail.faiss", 10), ("my_faiss_mail.pkl", 11)]).2
        "my_faiss_mail.faiss" ≠ some 10 := by
  refine ⟨by decide, by decide, by decide⟩
